import Mathlib

/-!
Verification of the GeoJSON worker source (src/source/geojson_worker_source.js).

The worker source keeps, per source id, an in-memory spatial index
(geojson-vt or supercluster, both external engines exposing
getTile(z, x, y)) and serves encoded tiles against it.  We shallowly embed
the functions of that file: loadGeoJSONTile, loadData (including its
loadGeoJSON fetch/parse helper), reloadTile, removeSource and the
aggregation callbacks synthesized by _indexData.

JavaScript values that flow through the code are modelled by the inductive
JSValue; JS objects used as string-keyed dictionaries (the index registry
this._geoJSONIndexes, the loaded-tile registry this.loaded, the cluster
accumulators) are modelled as functions into Option, where none stands for
an absent key (undefined).  External collaborators (ajax.getJSON,
JSON.parse, geojson-rewind, geojson-vt, supercluster, vt-pbf) are
parameters of the embedded functions; a thrown JS exception of an engine is
an Except.error, and the try/catch of the source is the corresponding
match.  Callbacks are modelled by returning the pair of arguments the
source passes to them.
-/

namespace GeoJSONWorker

/-- JS runtime values, as far as this file inspects them.  Numbers are
modelled as integers (no claim touches float-specific behaviour). -/
inductive JSValue where
  | vNull
  | vBool (b : Bool)
  | vNum (n : Int)
  | vStr (s : String)
  | vArr (elems : List JSValue)
  | vObj (fields : List (String × JSValue))

/-- JS truthiness of a value: null, false, 0 and the empty string are
falsy; arrays and objects are always truthy. -/
def truthy : JSValue → Bool
  | .vNull => false
  | .vBool b => b
  | .vNum n => n != 0
  | .vStr s => s != ""
  | .vArr _ => true
  | .vObj _ => true

/-- JS truthiness of a possibly-undefined value: undefined is falsy. -/
def truthyOpt : Option JSValue → Bool
  | none => false
  | some v => truthy v

/-- The JS typeof operator on our values.  Note that typeof yields
"object" for arrays and for null — the pitfall behind the typeof check in
loadData. -/
def jsTypeof : JSValue → String
  | .vNull => "object"
  | .vBool _ => "boolean"
  | .vNum _ => "number"
  | .vStr _ => "string"
  | .vArr _ => "object"
  | .vObj _ => "object"

/-- Update of a string-keyed JS dictionary: set (some value) or delete
(none). -/
def objSet {α : Type} (m : String → Option α) (k : String) (v : Option α) :
    String → Option α :=
  fun q => if q = k then v else m q

/-- A feature slice produced by an index query (geojson-vt tile / cluster
slice): an ordered list of feature records. -/
structure TileData where
  features : List JSValue

/-- A built spatial index (geojson-vt or supercluster result): both expose
getTile(z, x, y) returning a slice or nothing.  Modelled by its one
capability. -/
structure GeoJSONIndex where
  getTile : Nat → Int → Int → Option TileData

/-- The mutable state of a GeoJSONWorkerSource that the embedded functions
read and write: the source-id-to-index registry this._geoJSONIndexes and
the loaded-tile registry this.loaded inherited from VectorTileWorkerSource
(per source, a set of tile uids, modelled as its membership function). -/
structure WorkerState where
  _geoJSONIndexes : String → Option GeoJSONIndex
  loaded : String → Option (Nat → Bool)

/-- Tile coordinate { z, x, y }. -/
structure TileCoord where
  z : Nat
  x : Int
  y : Int

/-- The parameters of a tile request that loadGeoJSONTile reads. -/
structure WorkerTileParams where
  source : String
  coord : TileCoord
  maxZoom : Nat

/-- Modelled from the spec: the feature-level wrapper built by
./geojson_wrapper.js (a file of this repository not under src/).  The
spec describes it as the feature slice wrapped into a single
synthetically-named layer with the encoded raw bytes attached alongside;
we record exactly the fields loadGeoJSONTile sets on it. -/
structure GeoJSONWrapperData where
  name : String
  features : List JSValue
  rawData : Option (List Nat)

/-- Embedding of loadGeoJSONTile.  The vt-pbf encoder (external Tile
Encoder) is the parameter vtpbf, receiving the single layer name and the
wrapped features; its byte output stands for pbf.buffer (the
Uint8Array/byteOffset re-copy is a memory-layout detail with no observable
effect on the attached bytes).  The returned pair is the (error, data)
argument pair passed to the callback. -/
def loadGeoJSONTile (vtpbf : String → List JSValue → List Nat)
    (st : WorkerState) (params : WorkerTileParams) :
    Option String × Option GeoJSONWrapperData :=
  match st._geoJSONIndexes params.source with
  | none => (none, none)
  | some idx =>
    match idx.getTile (Nat.min params.coord.z params.maxZoom)
        params.coord.x params.coord.y with
    | none => (none, none)
    | some geoJSONTile =>
      (none, some { name := "_geojsonTileLayer",
                    features := geoJSONTile.features,
                    rawData := some (vtpbf "_geojsonTileLayer" geoJSONTile.features) })

/-- The empty loaded-tile record written by loadData (this.loaded[source]
= \x7b\x7d): present, but containing no uid. -/
def emptyLoaded : Nat → Bool := fun _ => false

/-- Embedding of the callback body of loadData, from the point where
this.loadGeoJSON delivers (err, data).  rewindFn models geojson-rewind
(in-place winding normalization, external); buildIndex models the
cluster-flag-selected engine call (supercluster(...).load(data.features)
or geojsonvt(data, options)), whose thrown exception is Except.error and
whose try/catch is the match below.  Returns the new state and the single
argument passed to the callback (none = success). -/
def loadDataReceive (rewindFn : JSValue → JSValue)
    (buildIndex : JSValue → Except String GeoJSONIndex)
    (st : WorkerState) (source : String)
    (err : Option String) (data : Option JSValue) :
    WorkerState × Option String :=
  if err.isSome || !(truthyOpt data) then
    (st, err)
  else
    match data with
    | some d =>
      if jsTypeof d != "object" then
        (st, some "Input data is not a valid GeoJSON object.")
      else
        match buildIndex (rewindFn d) with
        | .error e => (st, some e)
        | .ok idx =>
          ({ _geoJSONIndexes := objSet st._geoJSONIndexes source (some idx),
             loaded := objSet st.loaded source (some emptyLoaded) }, none)
    | none => (st, err)

/-- The parameters of loadData / the built-in loadGeoJSON. -/
structure LoadGeoJSONParams where
  url : Option String
  data : Option JSValue
  source : String

/-- Embedding of the built-in loadGeoJSON.  getJSON models ajax.getJSON
(external Data Fetcher); parseJSON models the JS builtin JSON.parse, whose
thrown SyntaxError is Except.error.  Returns the (err, data) pair passed
to the callback. -/
def loadGeoJSON (getJSON : String → Option String × Option JSValue)
    (parseJSON : String → Except Unit JSValue)
    (params : LoadGeoJSONParams) : Option String × Option JSValue :=
  if truthyOpt (params.url.map JSValue.vStr) then
    getJSON (params.url.getD "")
  else
    match params.data with
    | some (.vStr s) =>
      (match parseJSON s with
       | .ok v => (none, some v)
       | .error _ => (some "Input data is not a valid GeoJSON object.", none))
    | _ => (some "Input data is not a valid GeoJSON object.", none)

/-- Embedding of loadData with the built-in loadGeoJSON: fetch/parse, then
the callback body. -/
def loadData (getJSON : String → Option String × Option JSValue)
    (parseJSON : String → Except Unit JSValue)
    (rewindFn : JSValue → JSValue)
    (buildIndex : JSValue → Except String GeoJSONIndex)
    (st : WorkerState) (params : LoadGeoJSONParams) :
    WorkerState × Option String :=
  let r := loadGeoJSON getJSON parseJSON params
  loadDataReceive rewindFn buildIndex st params.source r.1 r.2

/-- Which path reloadTile takes: super.reloadTile of
VectorTileWorkerSource (incremental) or this.loadTile (full fresh load). -/
inductive ReloadPath where
  | incremental
  | fullLoad
deriving DecidableEq

/-- Embedding of reloadTile: the branch on loaded && loaded[uid]. -/
def reloadTile (st : WorkerState) (source : String) (uid : Nat) : ReloadPath :=
  match st.loaded source with
  | some m => if m uid then .incremental else .fullLoad
  | none => .fullLoad

/-- Embedding of removeSource: delete the index entry if present (index
objects are always truthy). -/
def removeSource (st : WorkerState) (source : String) : WorkerState :=
  match st._geoJSONIndexes source with
  | some _ => { st with _geoJSONIndexes := objSet st._geoJSONIndexes source none }
  | none => st

/-- Embedding of the initial function _indexData synthesizes onto
superclusterOptions when clusterMapProperties is supplied: a fresh object
with one empty array per listed key. -/
def initialFn (clusterMapProperties : List String) :
    String → Option (List JSValue) :=
  clusterMapProperties.foldl (fun acc key => objSet acc key (some []))
    (fun _ => none)

/-- One key of the reduce function: if props[key] is truthy, push it onto
accumulated[key].  If accumulated[key] is undefined, the JS code would
throw a TypeError (push on undefined); that is the Except.error case (it
aborts the forEach, as a thrown exception would). -/
def reduceStep (props : String → Option JSValue)
    (acc : Except Unit (String → Option (List JSValue))) (key : String) :
    Except Unit (String → Option (List JSValue)) :=
  match acc with
  | .error e => .error e
  | .ok m =>
    match props key with
    | none => .ok m
    | some v =>
      if truthy v then
        match m key with
        | some arr => .ok (objSet m key (some (arr ++ [v])))
        | none => .error ()
      else .ok m

/-- Embedding of the reduce function _indexData synthesizes: forEach over
clusterMapProperties, pushing each truthy props[key] onto
accumulated[key], returning the mutated accumulator. -/
def reduceFn (clusterMapProperties : List String)
    (accumulated : String → Option (List JSValue))
    (props : String → Option JSValue) :
    Except Unit (String → Option (List JSValue)) :=
  clusterMapProperties.foldl (reduceStep props) (.ok accumulated)

/-- What one reduce step leaves at a listed key: the value is appended
exactly when it is truthy. -/
def appendIfTruthy (arr : List JSValue) (p : Option JSValue) : List JSValue :=
  match p with
  | some v => if truthy v then arr ++ [v] else arr
  | none => arr

/-! Concrete fixtures used by counterexamples and witnesses. -/

/-- A trivial encoder standing in for vt-pbf. -/
def encode0 : String → List JSValue → List Nat := fun _ _ => []

/-- An index whose every tile is empty. -/
def idx0 : GeoJSONIndex := { getTile := fun _ _ _ => none }

/-- geojson-rewind as the identity (its output shape is irrelevant to the
claims). -/
def rw0 : JSValue → JSValue := id

/-- An engine that succeeds on any input. -/
def bi0 : JSValue → Except String GeoJSONIndex := fun _ => .ok idx0

/-- An engine that throws on any input. -/
def biErr : JSValue → Except String GeoJSONIndex := fun _ => .error "engine failure"

/-- A fetcher that is never consulted by the fixtures (all use literal
data). -/
def getJSON0 : String → Option String × Option JSValue := fun _ => (none, none)

/-- Modelled from the spec: the JS builtin JSON.parse, restricted to the
two literals the concrete theorems feed it ("null" parses to null, "[]"
parses to the empty array); everything else is treated as a parse error. -/
def parse0 : String → Except Unit JSValue := fun s =>
  if s = "null" then .ok .vNull
  else if s = "[]" then .ok (.vArr [])
  else .error ()

/-- The completely empty worker state. -/
def st0 : WorkerState :=
  { _geoJSONIndexes := fun _ => none, loaded := fun _ => none }

/-- A state with no index for any source but tile uid 5 of source "geo"
recorded as loaded. -/
def stGeoLoaded : WorkerState :=
  { _geoJSONIndexes := fun _ => none,
    loaded := fun s => if s = "geo" then some (fun u => u == 5) else none }

/-- A state in which source "src1" is registered with an all-empty index. -/
def stEmptyTile : WorkerState :=
  { _geoJSONIndexes := fun s => if s = "src1" then some idx0 else none,
    loaded := fun _ => none }

/-- A tile request for source "src1" at z 0. -/
def tileParams0 : WorkerTileParams :=
  { source := "src1", coord := { z := 0, x := 0, y := 0 }, maxZoom := 14 }

/-- A minimal GeoJSON feature-collection object. -/
def objFC : JSValue := .vObj [("type", .vStr "FeatureCollection")]

/-- Properties carrying name = "A". -/
def propsA : String → Option JSValue :=
  fun k => if k = "name" then some (.vStr "A") else none

/-- Properties carrying name = "B". -/
def propsB : String → Option JSValue :=
  fun k => if k = "name" then some (.vStr "B") else none

/-- Properties in which the key name is present but holds the falsy empty
string. -/
def propsEmptyName : String → Option JSValue :=
  fun k => if k = "name" then some (.vStr "") else none

/-- A one-feature tile slice. -/
def tile1 : TileData := { features := [.vObj [("id", .vNum 1)]] }

/-- An index serving tile1 everywhere. -/
def idx1 : GeoJSONIndex := { getTile := fun _ _ _ => some tile1 }

/-- A state in which source "src1" is registered with idx1. -/
def st1 : WorkerState :=
  { _geoJSONIndexes := fun s => if s = "src1" then some idx1 else none,
    loaded := fun _ => none }

/-- A tile request for source "src1" whose zoom 20 exceeds maxZoom 14. -/
def tileParamsHighZ : WorkerTileParams :=
  { source := "src1", coord := { z := 20, x := 3, y := 7 }, maxZoom := 14 }

/-- loadData parameters with literal data "null" (which JSON.parse maps to
the falsy value null). -/
def paramsNull : LoadGeoJSONParams :=
  { url := none, data := some (.vStr "null"), source := "geo" }

/-- loadData parameters with literal data "[]" (a JSON array). -/
def paramsArr : LoadGeoJSONParams :=
  { url := none, data := some (.vStr "[]"), source := "geo" }

/-!  Claims. -/

/-- C1 counterexample: at a concrete unknown-source state and a concrete
registered-source state whose index yields no slice for the requested
tile, loadGeoJSONTile returns the identical callback pair (null, null);
the no-source signal is therefore not distinguishable from the empty-tile
signal, contrary to the claim. -/
theorem c1_counterexample :
    loadGeoJSONTile encode0 st0 tileParams0 =
      loadGeoJSONTile encode0 stEmptyTile tileParams0 ∧
    loadGeoJSONTile encode0 st0 tileParams0 = (none, none) :=
  ⟨rfl, rfl⟩

/-- C1 (amended): a tile query whose sourceId has no registered index
returns the callback pair (null, null) — never an error — and this is the
very same signal the code returns when a registered source's index yields
no slice for the requested tile: the two cases are conflated, not
distinguishable. -/
theorem c1_no_source_signal (vtpbf : String → List JSValue → List Nat)
    (st st2 : WorkerState) (params : WorkerTileParams) (idx : GeoJSONIndex)
    (h : st._geoJSONIndexes params.source = none)
    (h2 : st2._geoJSONIndexes params.source = some idx)
    (ht : idx.getTile (Nat.min params.coord.z params.maxZoom)
      params.coord.x params.coord.y = none) :
    loadGeoJSONTile vtpbf st params = (none, none) ∧
    loadGeoJSONTile vtpbf st2 params = loadGeoJSONTile vtpbf st params := by
  simp [loadGeoJSONTile, h, h2, ht]

/-- Witness for c1_no_source_signal at the concrete fixtures. -/
theorem c1_no_source_signal_witness :
    loadGeoJSONTile encode0 st0 tileParams0 = (none, none) ∧
    loadGeoJSONTile encode0 stEmptyTile tileParams0 =
      loadGeoJSONTile encode0 st0 tileParams0 :=
  c1_no_source_signal encode0 st0 stEmptyTile tileParams0 idx0 rfl rfl rfl

/-- C4: every failure of the loadData callback body — a loader (fetch or
parse) error, invalid (non-object) input, or an exception thrown by the
index engine — is delivered as the callback argument and leaves the whole
worker state (both the index registry and the loaded-tile tracking)
unchanged.  That the embedding is a total function returning the callback
argument is the never-escapes property: every path ends in a callback
invocation, the engine exception being caught by the try/catch (the match
on buildIndex). -/
theorem c4_failures_reported_and_frame (rwf : JSValue → JSValue)
    (bi : JSValue → Except String GeoJSONIndex)
    (st : WorkerState) (source : String) :
    (∀ e data, loadDataReceive rwf bi st source (some e) data = (st, some e)) ∧
    (∀ d, truthy d = true → jsTypeof d ≠ "object" →
      loadDataReceive rwf bi st source none (some d) =
        (st, some "Input data is not a valid GeoJSON object.")) ∧
    (∀ d e, truthy d = true → jsTypeof d = "object" → bi (rwf d) = .error e →
      loadDataReceive rwf bi st source none (some d) = (st, some e)) := by
  refine ⟨?_, ?_, ?_⟩
  · intro e data
    unfold loadDataReceive
    simp
  · intro d h1 h2
    unfold loadDataReceive
    simp [truthyOpt, h1, h2]
  · intro d e h1 h2 h3
    unfold loadDataReceive
    simp [truthyOpt, h1, h2, h3]

/-- Witness for c4_failures_reported_and_frame: the three failure kinds at
concrete inputs. -/
theorem c4_failures_reported_and_frame_witness :
    loadDataReceive rw0 bi0 st0 "geo" (some "fetch failed") none =
      (st0, some "fetch failed") ∧
    loadDataReceive rw0 bi0 st0 "geo" none (some (.vStr "x")) =
      (st0, some "Input data is not a valid GeoJSON object.") ∧
    loadDataReceive rw0 biErr st0 "geo" none (some objFC) =
      (st0, some "engine failure") :=
  ⟨(c4_failures_reported_and_frame rw0 bi0 st0 "geo").1 "fetch failed" none,
   (c4_failures_reported_and_frame rw0 bi0 st0 "geo").2.1 (.vStr "x")
     rfl (by decide),
   (c4_failures_reported_and_frame rw0 biErr st0 "geo").2.2 objFC
     "engine failure" rfl rfl rfl⟩

/-- C5: a tile query against a registered (or any) source whose requested
zoom is at least maxZoom is served exactly as the same request at zoom
maxZoom — the index is queried at Math.min(coord.z, maxZoom), never at the
raw requested zoom. -/
theorem c5_zoom_clamped (vtpbf : String → List JSValue → List Nat)
    (st : WorkerState) (params : WorkerTileParams)
    (h : params.maxZoom ≤ params.coord.z) :
    loadGeoJSONTile vtpbf st params =
      loadGeoJSONTile vtpbf st
        { params with coord := { params.coord with z := params.maxZoom } } := by
  unfold loadGeoJSONTile
  simp [Nat.min_eq_right h, Nat.min_self]

/-- Witness for c5_zoom_clamped: a request at zoom 20 against maxZoom 14. -/
theorem c5_zoom_clamped_witness :
    loadGeoJSONTile encode0 stEmptyTile tileParamsHighZ =
      loadGeoJSONTile encode0 stEmptyTile
        { tileParamsHighZ with
            coord := { tileParamsHighZ.coord with z := tileParamsHighZ.maxZoom } } :=
  c5_zoom_clamped encode0 stEmptyTile tileParamsHighZ (by decide)

/-- C7: removeSource is idempotent — the post-state after one call equals
the post-state after two, the id is absent from the index registry
afterwards, and on an unknown id the call is a no-op (in particular it
never fails: the embedding is total). -/
theorem c7_removeSource_idempotent (st : WorkerState) (s : String) :
    removeSource (removeSource st s) s = removeSource st s ∧
    (removeSource st s)._geoJSONIndexes s = none ∧
    (st._geoJSONIndexes s = none → removeSource st s = st) := by
  cases h : st._geoJSONIndexes s with
  | none => simp [removeSource, h]
  | some idx => simp [removeSource, h, objSet]

/-- Witness for c7_removeSource_idempotent on the empty state, where the
id "geo" is unknown. -/
theorem c7_removeSource_idempotent_witness :
    removeSource (removeSource st0 "geo") "geo" = removeSource st0 "geo" ∧
    (removeSource st0 "geo")._geoJSONIndexes "geo" = none ∧
    removeSource st0 "geo" = st0 :=
  ⟨(c7_removeSource_idempotent st0 "geo").1,
   (c7_removeSource_idempotent st0 "geo").2.1,
   (c7_removeSource_idempotent st0 "geo").2.2 rfl⟩

/-- C8: when the index yields a (non-empty) feature slice, the callback
receives, with no error, the slice wrapped as a single layer named
_geojsonTileLayer with the Tile-Encoder output attached as rawData
alongside the feature list — both forms present on the returned value. -/
theorem c8_wrap_and_encode (vtpbf : String → List JSValue → List Nat)
    (st : WorkerState) (params : WorkerTileParams)
    (idx : GeoJSONIndex) (tile : TileData)
    (hidx : st._geoJSONIndexes params.source = some idx)
    (ht : idx.getTile (Nat.min params.coord.z params.maxZoom)
      params.coord.x params.coord.y = some tile)
    (_hne : tile.features ≠ []) :
    loadGeoJSONTile vtpbf st params =
      (none, some { name := "_geojsonTileLayer",
                    features := tile.features,
                    rawData := some (vtpbf "_geojsonTileLayer" tile.features) }) := by
  simp [loadGeoJSONTile, hidx, ht]

/-- Witness for c8_wrap_and_encode at a one-feature tile. -/
theorem c8_wrap_and_encode_witness :
    loadGeoJSONTile encode0 st1 tileParams0 =
      (none, some { name := "_geojsonTileLayer",
                    features := tile1.features,
                    rawData := some (encode0 "_geojsonTileLayer" tile1.features) }) :=
  c8_wrap_and_encode encode0 st1 tileParams0 idx1 tile1 rfl rfl
    (by simp [tile1])

/-- C9: when the loader hands the loadData callback body neither an error
nor truthy data, loadData reports success — the callback receives the
falsy error, i.e. no error — while the state (index registry and
loaded-tile tracking alike) is left untouched. -/
theorem c9_falsy_success (rwf : JSValue → JSValue)
    (bi : JSValue → Except String GeoJSONIndex)
    (st : WorkerState) (source : String) (data : Option JSValue)
    (h : truthyOpt data = false) :
    loadDataReceive rwf bi st source none data = (st, none) := by
  unfold loadDataReceive
  simp [h]

/-- Witness for c9_falsy_success with both callback arguments absent. -/
theorem c9_falsy_success_witness :
    loadDataReceive rw0 bi0 st0 "geo" none none = (st0, none) :=
  c9_falsy_success rw0 bi0 st0 "geo" none rfl

/-- C10: removeSource touches only the index registry: the loaded-tile
tracking is unchanged, reloadTile decides identically before and after,
and in particular a pair recorded as loaded still takes the incremental
path after removal. -/
theorem c10_removeSource_preserves_loaded (st : WorkerState) (s : String) :
    (removeSource st s).loaded = st.loaded ∧
    (∀ s2 uid, reloadTile (removeSource st s) s2 uid = reloadTile st s2 uid) ∧
    (∀ m uid, st.loaded s = some m → m uid = true →
      reloadTile (removeSource st s) s uid = .incremental) := by
  have hl : (removeSource st s).loaded = st.loaded := by
    unfold removeSource
    cases st._geoJSONIndexes s <;> rfl
  refine ⟨hl, ?_, ?_⟩
  · intro s2 uid
    unfold reloadTile
    rw [hl]
  · intro m uid hm hmu
    unfold reloadTile
    rw [hl, hm]
    simp [hmu]

/-- Witness for c10_removeSource_preserves_loaded at a state with uid 5 of
source "geo" recorded. -/
theorem c10_removeSource_preserves_loaded_witness :
    (removeSource stGeoLoaded "geo").loaded = stGeoLoaded.loaded ∧
    reloadTile (removeSource stGeoLoaded "geo") "geo" 5 = .incremental :=
  ⟨(c10_removeSource_preserves_loaded stGeoLoaded "geo").1,
   (c10_removeSource_preserves_loaded stGeoLoaded "geo").2.2
     (fun u => u == 5) 5 rfl rfl⟩

/-- C3 counterexample: uid 5 of source "geo" is recorded as loaded; a
loadData for "geo" with the literal data "null" reports success (the
parsed value null is falsy, so the callback body returns the absent error
before reaching the reset), yet reloadTile afterwards still takes the
incremental path — refuting that after ANY successful loadData the pair
reverts to the full-load path. -/
theorem c3_counterexample :
    (loadData getJSON0 parse0 rw0 bi0 stGeoLoaded paramsNull).2 = none ∧
    reloadTile (loadData getJSON0 parse0 rw0 bi0 stGeoLoaded paramsNull).1
      "geo" 5 = .incremental :=
  ⟨rfl, rfl⟩

/-- C3 (amended): reloadTile takes the incremental path (super.reloadTile)
iff a tile load is recorded for the (source, uid) pair under the current
generation, otherwise the full-load path (loadTile); and after a loadData
that actually installs an index for the source — the loader delivered
truthy object data and the engine succeeded — the pair takes the full-load
path because the tracking record is reset to empty.  (A loadData that
reports success because the loader delivered falsy data performs no reset;
see the counterexample.) -/
theorem c3_reload_path (st : WorkerState) (source : String) (uid : Nat) :
    (reloadTile st source uid = .incremental ↔
      ∃ m, st.loaded source = some m ∧ m uid = true) ∧
    (∀ rwf bi d idx, truthy d = true → jsTypeof d = "object" →
      bi (rwf d) = .ok idx →
      (loadDataReceive rwf bi st source none (some d)).2 = none ∧
      reloadTile (loadDataReceive rwf bi st source none (some d)).1
        source uid = .fullLoad) := by
  constructor
  · unfold reloadTile
    cases h : st.loaded source with
    | none => simp
    | some m =>
      cases hmu : m uid with
      | false => simp [hmu]
      | true => simp [hmu]
  · intro rwf bi d idx h1 h2 h3
    unfold loadDataReceive
    simp [truthyOpt, h1, h2, h3, reloadTile, objSet, emptyLoaded]

/-- Witness for c3_reload_path at the concrete fixtures. -/
theorem c3_reload_path_witness :
    (reloadTile stGeoLoaded "geo" 5 = .incremental ↔
      ∃ m, stGeoLoaded.loaded "geo" = some m ∧ m 5 = true) ∧
    ((loadDataReceive rw0 bi0 stGeoLoaded "geo" none (some objFC)).2 = none ∧
      reloadTile (loadDataReceive rw0 bi0 stGeoLoaded "geo" none (some objFC)).1
        "geo" 5 = .fullLoad) :=
  ⟨(c3_reload_path stGeoLoaded "geo" 5).1,
   (c3_reload_path stGeoLoaded "geo" 5).2 rw0 bi0 objFC idx0 rfl rfl rfl⟩

/-- C6 (the code evaluated at the failing input): with literal data "[]",
JSON.parse yields an array, the typeof check admits it (typeof of an array
is "object"), and loadData proceeds to rewind and index construction —
under an engine that accepts the input it even reports success and
installs an index entry for the source — instead of failing with
InvalidInputError as the claim and the spec say. -/
theorem c6_array_not_rejected :
    (loadData getJSON0 parse0 rw0 bi0 st0 paramsArr).2 = none ∧
    (loadData getJSON0 parse0 rw0 bi0 st0 paramsArr).1._geoJSONIndexes "geo" =
      some idx0 :=
  ⟨rfl, rfl⟩

/-- The fold building the initial accumulator writes some [] at every
listed key and keeps the base elsewhere. -/
lemma initialFn_foldl (keys : List String)
    (acc0 : String → Option (List JSValue)) (k : String) :
    keys.foldl (fun acc key => objSet acc key (some [])) acc0 k =
      if k ∈ keys then some [] else acc0 k := by
  induction keys generalizing acc0 with
  | nil => simp
  | cons key rest ih =>
    rw [List.foldl_cons, ih]
    by_cases hk : k ∈ rest
    · simp [hk]
    · by_cases he : k = key
      · simp [hk, he, objSet]
      · simp [hk, he, objSet]

/-- The synthesized initial function yields the empty sequence at every
listed key. -/
lemma initialFn_mem (keys : List String) (k : String) (h : k ∈ keys) :
    initialFn keys k = some [] := by
  unfold initialFn
  rw [initialFn_foldl]
  simp [h]

/-- Behaviour of the synthesized reduce function: when the listed keys are
distinct and the accumulator carries an array for each of them (as any
accumulator produced by the initial function does), the fold succeeds,
each listed key receives its props value appended exactly when that value
is truthy, and every other key is untouched. -/
lemma reduceFn_spec (props : String → Option JSValue) :
    ∀ (keys : List String) (acc : String → Option (List JSValue)),
      keys.Nodup → (∀ k, k ∈ keys → (acc k).isSome = true) →
      ∃ acc2, reduceFn keys acc props = .ok acc2 ∧
        (∀ k arr, k ∈ keys → acc k = some arr →
          acc2 k = some (appendIfTruthy arr (props k))) ∧
        (∀ k, k ∉ keys → acc2 k = acc k) := by
  intro keys
  induction keys with
  | nil =>
    intro acc _ _
    exact ⟨acc, rfl, by simp, fun k _ => rfl⟩
  | cons key rest ih =>
    intro acc hnd hdom
    obtain ⟨hkey, hrest⟩ := List.nodup_cons.mp hnd
    obtain ⟨arr0, harr0⟩ :=
      Option.isSome_iff_exists.mp (hdom key (List.mem_cons_self key rest))
    have hstep : ∃ acc1, reduceStep props (.ok acc) key = .ok acc1 ∧
        acc1 key = some (appendIfTruthy arr0 (props key)) ∧
        ∀ q, q ≠ key → acc1 q = acc q := by
      unfold reduceStep
      cases hp : props key with
      | none =>
        exact ⟨acc, rfl, by rw [harr0]; rfl, fun q _ => rfl⟩
      | some v =>
        cases hv : truthy v with
        | false =>
          refine ⟨acc, by simp [hv], ?_, fun q _ => rfl⟩
          rw [harr0]
          simp [appendIfTruthy, hv]
        | true =>
          refine ⟨objSet acc key (some (arr0 ++ [v])), ?_, ?_, ?_⟩
          · simp [hv, harr0]
          · simp [objSet, appendIfTruthy, hv]
          · intro q hq
            simp [objSet, hq]
    obtain ⟨acc1, hstep, hkey1, hother1⟩ := hstep
    have hdom1 : ∀ k, k ∈ rest → (acc1 k).isSome = true := by
      intro k hk
      rw [hother1 k (fun he => hkey (he ▸ hk))]
      exact hdom k (List.mem_cons_of_mem _ hk)
    obtain ⟨acc2, hfold, hupd, hframe⟩ := ih acc1 hrest hdom1
    refine ⟨acc2, ?_, ?_, ?_⟩
    · unfold reduceFn at hfold ⊢
      rw [List.foldl_cons, hstep]
      exact hfold
    · intro k arr hk harr
      rcases List.mem_cons.mp hk with he | hr
      · subst he
        have harr0eq : arr = arr0 := by
          rw [harr0] at harr
          exact (Option.some.inj harr).symm
        rw [hframe k hkey, hkey1, harr0eq]
      · have hne : k ≠ key := fun he => hkey (he ▸ hr)
        refine hupd k arr hr ?_
        rw [hother1 k hne]
        exact harr
    · intro k hk
      have h1 : k ∉ rest := fun h => hk (List.mem_cons_of_mem _ h)
      have h2 : k ≠ key := fun he => hk (he ▸ List.mem_cons_self key rest)
      rw [hframe k h1, hother1 k h2]

/-- C2 counterexample: with clusterMapProperties = ["name"], a feature
whose properties carry the key name with the falsy empty-string value is
skipped by the synthesized reduce function — the accumulator is returned
unchanged, its name entry still the empty sequence — although the key is
present in the properties, contrary to the claim that every present value
is appended. -/
theorem c2_counterexample :
    reduceFn ["name"] (initialFn ["name"]) propsEmptyName =
      .ok (initialFn ["name"]) ∧
    propsEmptyName "name" = some (.vStr "") ∧
    initialFn ["name"] "name" = some [] :=
  ⟨rfl, rfl, rfl⟩

/-- C2 (amended): the synthesized initial function returns one empty
sequence per listed key, and the synthesized reduce function appends each
feature's value for each listed key whenever that value is truthy (present
and not null, false, 0 or the empty string; a present falsy value is
skipped), in encounter order; in particular, for clusterMapProperties =
["name"] and two clustered points with truthy name values "A" and "B",
the aggregated name accumulator contains both values in encounter
order. -/
theorem c2_cluster_aggregation (keys : List String)
    (acc : String → Option (List JSValue)) (props : String → Option JSValue)
    (hnd : keys.Nodup) (hdom : ∀ k, k ∈ keys → (acc k).isSome = true) :
    (∀ k, k ∈ keys → initialFn keys k = some []) ∧
    (∃ acc2, reduceFn keys acc props = .ok acc2 ∧
      ∀ k arr, k ∈ keys → acc k = some arr →
        acc2 k = some (appendIfTruthy arr (props k))) ∧
    ((reduceFn ["name"] (initialFn ["name"]) propsA).bind
        (fun a => reduceFn ["name"] a propsB)).map (fun m => m "name") =
      .ok (some [.vStr "A", .vStr "B"]) := by
  refine ⟨fun k hk => initialFn_mem keys k hk, ?_, rfl⟩
  obtain ⟨acc2, h1, h2, _⟩ := reduceFn_spec props keys acc hnd hdom
  exact ⟨acc2, h1, h2⟩

/-- Witness for c2_cluster_aggregation at keys = ["name"], the initial
accumulator and the name = "A" properties. -/
theorem c2_cluster_aggregation_witness :
    (∀ k, k ∈ ["name"] → initialFn ["name"] k = some []) ∧
    (∃ acc2, reduceFn ["name"] (initialFn ["name"]) propsA = .ok acc2 ∧
      ∀ k arr, k ∈ ["name"] → initialFn ["name"] k = some arr →
        acc2 k = some (appendIfTruthy arr (propsA k))) ∧
    ((reduceFn ["name"] (initialFn ["name"]) propsA).bind
        (fun a => reduceFn ["name"] a propsB)).map (fun m => m "name") =
      .ok (some [.vStr "A", .vStr "B"]) :=
  c2_cluster_aggregation ["name"] (initialFn ["name"]) propsA
    (by decide) (by decide)

end GeoJSONWorker
